import Mathlib

/-!
Verification of the CredSentinel scoring and alerting engine.

The definitions below are a shallow embedding of the Python services in
`backend/app/services` (scoring_service.py, alert_service.py).  Python
floats are modelled as rationals (all constants in the code are decimal
literals, and the claims under study only involve comparisons and
additions of such literals); nullable columns are modelled as `Option`.
-/

namespace CredSentinel

/-- A FeatureSnapshot: the per-entity financial/market inputs used by scoring
(`FinancialData` model; every metric column is nullable). -/
structure FinancialData where
  debt_to_equity : Option ℚ
  current_ratio : Option ℚ
  return_on_equity : Option ℚ
  revenue_growth : Option ℚ
  price_volatility : Option ℚ
  beta : Option ℚ
  market_cap : Option ℚ
deriving DecidableEq

/-- A NewsSignal (`NewsEvent` model): sentiment score, nullable event type and
risk score, as consumed by the scoring and alert services. -/
structure NewsEvent where
  sentiment_score : ℚ
  event_type : Option String
  risk_score : ℚ
deriving DecidableEq

/-- `ScoringService._calculate_financial_score`: base 50, one ladder
adjustment per present metric, clamped to [0, 100]. -/
def calculate_financial_score (financial_data : FinancialData) : ℚ :=
  let score : ℚ := 50
  let score :=
    match financial_data.debt_to_equity with
    | none => score
    | some d =>
        if d ≤ 0.5 then score + 20
        else if d ≤ 1.0 then score + 10
        else if d ≤ 2.0 then score - 10
        else score - 20
  let score :=
    match financial_data.current_ratio with
    | none => score
    | some c =>
        if c ≥ 2.0 then score + 15
        else if c ≥ 1.5 then score + 10
        else if c ≥ 1.0 then score + 5
        else score - 15
  let score :=
    match financial_data.return_on_equity with
    | none => score
    | some r =>
        if r ≥ 0.15 then score + 15
        else if r ≥ 0.10 then score + 10
        else if r ≥ 0.05 then score + 5
        else score - 10
  let score :=
    match financial_data.revenue_growth with
    | none => score
    | some g =>
        if g ≥ 0.10 then score + 10
        else if g ≥ 0.05 then score + 5
        else if g < 0 then score - 10
        else score
  max 0 (min 100 score)

/-- `ScoringService._calculate_market_score`: base 50, ladders over price
volatility, beta and market cap, clamped to [0, 100]. -/
def calculate_market_score (financial_data : FinancialData) : ℚ :=
  let score : ℚ := 50
  let score :=
    match financial_data.price_volatility with
    | none => score
    | some v =>
        if v ≤ 0.2 then score + 20
        else if v ≤ 0.3 then score + 10
        else if v ≤ 0.4 then score + 5
        else score - 10
  let score :=
    match financial_data.beta with
    | none => score
    | some b =>
        if b ≤ 0.8 then score + 15
        else if b ≤ 1.2 then score + 10
        else if b ≤ 1.5 then score + 5
        else score - 10
  let score :=
    match financial_data.market_cap with
    | none => score
    | some m =>
        if m ≥ 10000 then score + 15
        else if m ≥ 1000 then score + 10
        else if m ≥ 100 then score + 5
        else score - 5
  max 0 (min 100 score)

/-- The high-risk event types, `['default', 'legal', 'restructuring']`, shared
by the scoring and alert services. -/
def high_risk_events : List String := ["default", "legal", "restructuring"]

/-- Does a news event carry a high-risk event type?  Mirrors the Python
membership test `event.event_type in high_risk_events` (`None` is never a
member). -/
def has_high_risk_type (e : NewsEvent) : Bool :=
  match e.event_type with
  | some t => decide (t ∈ high_risk_events)
  | none => false

/-- One step of the risk-penalty loop in `_calculate_news_score`: 10 points
for a high-risk event type, otherwise (`elif`) 5 points when the risk score
exceeds 0.7. -/
def news_penalty_step (penalty : ℚ) (e : NewsEvent) : ℚ :=
  if has_high_risk_type e then penalty + 10
  else if e.risk_score > 0.7 then penalty + 5
  else penalty

/-- `ScoringService._calculate_news_score`: neutral 50 when there is no news,
otherwise 50 plus average sentiment times 30 minus a penalty capped at 20,
clamped to [0, 100]. -/
def calculate_news_score (news_events : List NewsEvent) : ℚ :=
  if news_events.isEmpty then 50
  else
    let score : ℚ := 50
    let avg_sentiment : ℚ :=
      (news_events.map (fun e => e.sentiment_score)).sum / news_events.length
    let score := score + avg_sentiment * 30
    let risk_penalty : ℚ := news_events.foldl news_penalty_step 0
    let score := score - min risk_penalty 20
    max 0 (min 100 score)

/-- The score-change line of `_compute_score_background`:
`score_change = overall_score - previous_score if previous_score else 0`.
Python truthiness: both a missing previous score and a previous score equal
to `0.0` select the `else 0` branch. -/
def score_change_of (previous_score : Option ℚ) (overall_score : ℚ) : ℚ :=
  match previous_score with
  | some p => if p = 0 then 0 else overall_score - p
  | none => 0

/-- `ScoringService._get_previous_score` applied to the stored overall
scores, most recent first, at the time of the call — before the new score
row is saved.  The query orders by `calculated_at` descending and applies
`offset(1).first()`, so it skips the most recent stored score and returns
the second most recent, or `None` when fewer than two scores are stored. -/
def get_previous_score (history : List ℚ) : Option ℚ :=
  match history with
  | _ :: p :: _ => some p
  | _ => none

/-- The score change `_compute_score_background` actually records for a new
overall score, given the stored score history (most recent first, queried
before the new row is saved): the value fetched by `_get_previous_score`
fed through the truthiness test on line 74. -/
def recorded_score_change (history : List ℚ) (overall_score : ℚ) : ℚ :=
  score_change_of (get_previous_score history) overall_score

/-- `ScoringService._determine_trend_direction`. -/
def determine_trend_direction (score_change : ℚ) : String :=
  if score_change > 5 then "increasing"
  else if score_change < -5 then "decreasing"
  else "stable"

/-- Mean of a list of rationals (division by zero yields 0 in ℚ; the callers
below never reach that case). -/
def listMean (l : List ℚ) : ℚ := l.sum / l.length

/-- Population variance, i.e. the square of `np.std(values)` with its default
`ddof=0`: the mean of the squared deviations from the mean. -/
def popVariance (l : List ℚ) : ℚ :=
  (l.map (fun x => (x - listMean l) ^ 2)).sum / l.length

/-- Sample variance (the square of the sample standard deviation, Bessel
`ddof=1`): sum of squared deviations divided by `n - 1`. -/
def sampleVariance (l : List ℚ) : ℚ :=
  (l.map (fun x => (x - listMean l) ^ 2)).sum / (l.length - 1 : ℕ)

/-- `ScoringService._calculate_volatility`: take the last 10 overall scores
(most-recent-first history), return 0 for fewer than 2 samples, and otherwise
`np.std(score_values)` — the population standard deviation. -/
noncomputable def calculate_volatility (history : List ℚ) : ℝ :=
  let scores := history.take 10
  if scores.length < 2 then 0
  else Real.sqrt ((popVariance scores : ℚ) : ℝ)

/-- Modelled from the spec: the volatility the spec sentence describes, the
sample standard deviation of the last 10 overall scores (0 below 2 samples). -/
noncomputable def claimed_volatility (history : List ℚ) : ℝ :=
  let scores := history.take 10
  if scores.length < 2 then 0
  else Real.sqrt ((sampleVariance scores : ℚ) : ℝ)

/-- The mutable read/acknowledge state of one `Alert` row (time as ℚ). -/
structure AlertState where
  is_read : Bool
  is_acknowledged : Bool
  acknowledged_by : Option String
  acknowledged_at : Option ℚ
deriving DecidableEq

/-- `AlertService.mark_alert_read` on an existing alert row. -/
def mark_alert_read (a : AlertState) : AlertState :=
  { a with is_read := true }

/-- `AlertService.acknowledge_alert` on an existing alert row: sets the
acknowledged flag and unconditionally records the caller and the current
time. -/
def acknowledge_alert (a : AlertState) (acknowledged_by : String) (now : ℚ) :
    AlertState :=
  { a with
    is_acknowledged := true
    acknowledged_by := some acknowledged_by
    acknowledged_at := some now }

/-- The fields of a `score_change` alert row populated by
`create_score_change_alert`. -/
structure ScoreChangeAlert where
  alert_type : String
  severity : String
  score_change : ℚ
  previous_score : ℚ
  current_score : ℚ
  change_percentage : ℚ
  trigger_value : ℚ
  threshold_value : ℚ
deriving DecidableEq

/-- `AlertService.create_score_change_alert`: suppress when
`abs(score_change) < self.score_change_threshold`, otherwise classify the
severity by the ladder on the absolute change and emit the alert row. -/
def create_score_change_alert (score_change_threshold : ℚ)
    (previous_score current_score : ℚ) : Option ScoreChangeAlert :=
  let score_change := current_score - previous_score
  let change_percentage :=
    if previous_score > 0 then score_change / previous_score * 100 else 0
  if |score_change| < score_change_threshold then none
  else
    let severity :=
      if |score_change| ≥ 30 then "critical"
      else if |score_change| ≥ 20 then "high"
      else if |score_change| ≥ 10 then "medium"
      else "low"
    some
      { alert_type := "score_change"
        severity := severity
        score_change := score_change
        previous_score := previous_score
        current_score := current_score
        change_percentage := change_percentage
        trigger_value := score_change
        threshold_value := score_change_threshold }

/-- `AlertService._is_high_risk_news`: high-risk event type, or sentiment
below −0.5, or risk score above 0.7. -/
def is_high_risk_news (news_event : NewsEvent) : Bool :=
  has_high_risk_type news_event
  || decide (news_event.sentiment_score < -0.5)
  || decide (news_event.risk_score > 0.7)

/-- `AlertService._determine_news_severity`. -/
def determine_news_severity (news_event : NewsEvent) : String :=
  if news_event.event_type = some "default" then "critical"
  else if news_event.event_type = some "legal"
      ∨ news_event.event_type = some "restructuring" then "high"
  else if news_event.sentiment_score < -0.7 then "high"
  else if news_event.sentiment_score < -0.3 then "medium"
  else "low"

/-- The fields of a `news_event` alert row populated by `create_news_alert`
that the claims constrain. -/
structure NewsAlert where
  alert_type : String
  severity : String
  trigger_value : ℚ
  threshold_value : ℚ
deriving DecidableEq

/-- `AlertService.create_news_alert`: nothing for a non-high-risk signal.
For a high-risk signal the alert title is built with
`news_event.event_type.title()`; when the event type is null this raises
`AttributeError`, which the surrounding `except` handler catches, rolling
back and returning `None` — so no alert row is created.  Only a high-risk
signal with a non-null event type yields an alert, with the severity from
`_determine_news_severity`. -/
def create_news_alert (news_event : NewsEvent) : Option NewsAlert :=
  if !is_high_risk_news news_event then none
  else
    match news_event.event_type with
    | none => none
    | some _ =>
        some
          { alert_type := "news_event"
            severity := determine_news_severity news_event
            trigger_value := news_event.risk_score
            threshold_value := 0.7 }

/-- Zero-pad a digit string on the left to the given length. -/
def padZeros (s : String) (len : Nat) : String :=
  String.mk (List.replicate (len - s.length) '0') ++ s

/-- Fixed-point decimal rendering of a rational, as used by the Python
format specifiers such as `:.2f` and `:.1f` in the explanation strings. -/
def fmtFixed (decimals : Nat) (q : ℚ) : String :=
  let n : ℤ := round (q * (10 : ℚ) ^ decimals)
  let sign := if n < 0 then "-" else ""
  let a := n.natAbs
  let ip := a / 10 ^ decimals
  let fp := a % 10 ^ decimals
  if decimals = 0 then sign ++ toString ip
  else sign ++ toString ip ++ "." ++ padZeros (toString fp) decimals

/-- Percent rendering, as used by the Python `:.2%` format specifier. -/
def fmtPercent (q : ℚ) : String :=
  fmtFixed 2 (q * 100) ++ "%"

/-- The explanation payload produced by `_generate_explanation`. -/
structure Explanation where
  explanation_summary : String
  key_factors : List String
  risk_indicators : List String
deriving DecidableEq

/-- One admissible iteration order of a Python set of strings: the distinct
elements in first-occurrence order. -/
def set_order_fwd (l : List String) : List String :=
  l.foldl (fun acc a => if a ∈ acc then acc else acc ++ [a]) []

/-- Another admissible iteration order of a Python set of strings: the
distinct elements in reversed first-occurrence order. -/
def set_order_rev (l : List String) : List String :=
  (set_order_fwd l).reverse

/-- `ScoringService._generate_explanation`.  Each guard mirrors the Python
truthiness test `if value and value <cmp> threshold` (a `None` or `0.0`
metric is skipped).  The `set_order` parameter models the iteration order
of the Python `set` in `', '.join(set(...))` over the high-risk event
types: string hashing is randomized per process (PYTHONHASHSEED), so the
set's order is fixed within one process but unspecified across processes;
any function enumerating the distinct collected types is an admissible
order. -/
def generate_explanation (set_order : List String → List String)
    (ticker : String) (financial_data : FinancialData)
    (news_events : List NewsEvent) (score_change : ℚ) : Explanation :=
  let debtFactor : List String × List String :=
    match financial_data.debt_to_equity with
    | some d =>
        if d ≠ 0 ∧ d > 1.0 then
          (["High debt-to-equity ratio (" ++ fmtFixed 2 d ++ ")"],
           ["high_leverage"])
        else ([], [])
    | none => ([], [])
  let crFactor : List String × List String :=
    match financial_data.current_ratio with
    | some c =>
        if c ≠ 0 ∧ c < 1.5 then
          (["Low current ratio (" ++ fmtFixed 2 c ++ ")"],
           ["liquidity_concerns"])
        else ([], [])
    | none => ([], [])
  let roeFactor : List String × List String :=
    match financial_data.return_on_equity with
    | some r =>
        if r ≠ 0 ∧ r < 0.05 then
          (["Low return on equity (" ++ fmtPercent r ++ ")"],
           ["poor_profitability"])
        else ([], [])
    | none => ([], [])
  let pvFactor : List String × List String :=
    match financial_data.price_volatility with
    | some v =>
        if v ≠ 0 ∧ v > 0.4 then
          (["High price volatility (" ++ fmtPercent v ++ ")"],
           ["market_volatility"])
        else ([], [])
    | none => ([], [])
  let negFactor : List String × List String :=
    if news_events.isEmpty then ([], [])
    else
      let negative_news :=
        news_events.filter (fun e => decide (e.sentiment_score < -0.3))
      if negative_news.isEmpty then ([], [])
      else
        (["Negative sentiment in " ++ toString negative_news.length
            ++ " recent news articles"],
         ["negative_news_sentiment"])
  let hrFactor : List String × List String :=
    if news_events.isEmpty then ([], [])
    else
      let hr := news_events.filter has_high_risk_type
      if hr.isEmpty then ([], [])
      else
        (["High-risk events detected: "
            ++ String.intercalate ", "
                (set_order (hr.filterMap (fun e => e.event_type)))],
         ["high_risk_events"])
  let key_factors :=
    debtFactor.1 ++ crFactor.1 ++ roeFactor.1 ++ pvFactor.1
      ++ negFactor.1 ++ hrFactor.1
  let risk_indicators :=
    debtFactor.2 ++ crFactor.2 ++ roeFactor.2 ++ pvFactor.2
      ++ negFactor.2 ++ hrFactor.2
  let summary :=
    if score_change > 0 then
      ticker ++ "\x27s credit score improved by " ++ fmtFixed 1 score_change
        ++ " points due to positive financial and market indicators."
    else if score_change < 0 then
      ticker ++ "\x27s credit score decreased by " ++ fmtFixed 1 |score_change|
        ++ " points due to " ++ String.intercalate ", " (key_factors.take 2)
        ++ "."
    else
      ticker
        ++ "\x27s credit score remained stable with no significant changes in risk factors."
  { explanation_summary := summary
    key_factors := key_factors
    risk_indicators := risk_indicators }

/-- `ScoringService._calculate_feature_importance`: the insertion-ordered
`importance` mapping. -/
def calculate_feature_importance (financial_data : FinancialData)
    (news_events : List NewsEvent) : List (String × ℚ) :=
  (match financial_data.debt_to_equity with
   | some d => [("debt_to_equity", |d - 1.0| * 10)]
   | none => [])
  ++ (match financial_data.current_ratio with
   | some c => [("current_ratio", |c - 2.0| * 5)]
   | none => [])
  ++ (match financial_data.return_on_equity with
   | some r => [("return_on_equity", |r - 0.15| * 20)]
   | none => [])
  ++ (match financial_data.price_volatility with
   | some v => [("price_volatility", v * 50)]
   | none => [])
  ++ (if news_events.isEmpty then []
      else
        let avg_sentiment :=
          (news_events.map (fun e => e.sentiment_score)).sum
            / news_events.length
        [("news_sentiment", |avg_sentiment| * 30),
         ("high_risk_events",
           ((news_events.filter has_high_risk_type).length : ℚ) * 15)])

/-- The scoring weight configuration (`settings`). -/
structure Weights where
  financial_weight : ℚ
  market_weight : ℚ
  news_weight : ℚ
deriving DecidableEq

/-- The `CreditScore` row written by `_save_credit_score` (time as ℚ, in
hours, so `valid_until = now + 24`). -/
structure CreditScoreRecord where
  overall_score : ℚ
  financial_score : ℚ
  market_score : ℚ
  news_score : ℚ
  score_change : ℚ
  trend_direction : String
  volatility : ℝ
  explanation_summary : String
  key_factors : List String
  risk_indicators : List String
  feature_importance : List (String × ℚ)
  model_version : String
  calculation_method : String
  confidence_level : ℚ
  calculated_at : ℚ
  valid_until : ℚ

/-- A record is a run of `_compute_score_background` followed by
`_save_credit_score` on the given inputs: one conjunct per computation step
of the Python pipeline, each later step constrained in terms of the record
fields the earlier steps produced.  `history` is the stored score list
(most recent first) at the time of the run, which both
`_get_previous_score` and `_calculate_volatility` query before the save;
`set_order` is the process's hash-seed-dependent set iteration order used
by `_generate_explanation`. -/
def IsScoreRun (set_order : List String → List String) (w : Weights)
    (ticker : String) (financial_data : FinancialData)
    (news_data : List NewsEvent) (history : List ℚ) (now : ℚ)
    (rec : CreditScoreRecord) : Prop :=
  rec.financial_score = calculate_financial_score financial_data ∧
  rec.market_score = calculate_market_score financial_data ∧
  rec.news_score = calculate_news_score news_data ∧
  rec.overall_score =
    w.financial_weight * rec.financial_score
      + w.market_weight * rec.market_score
      + w.news_weight * rec.news_score ∧
  rec.score_change =
    score_change_of (get_previous_score history) rec.overall_score ∧
  rec.trend_direction = determine_trend_direction rec.score_change ∧
  rec.volatility = calculate_volatility history ∧
  rec.explanation_summary =
    (generate_explanation set_order ticker financial_data news_data
        rec.score_change).explanation_summary ∧
  rec.key_factors =
    (generate_explanation set_order ticker financial_data news_data
        rec.score_change).key_factors ∧
  rec.risk_indicators =
    (generate_explanation set_order ticker financial_data news_data
        rec.score_change).risk_indicators ∧
  rec.feature_importance =
    calculate_feature_importance financial_data news_data ∧
  rec.model_version = "1.0" ∧
  rec.calculation_method = "weighted_average" ∧
  rec.confidence_level = 0.85 ∧
  rec.calculated_at = now ∧
  rec.valid_until = now + 24

/-- The record `_compute_score_background` actually builds and saves. -/
noncomputable def build_credit_score (set_order : List String → List String)
    (w : Weights) (ticker : String) (financial_data : FinancialData)
    (news_data : List NewsEvent) (history : List ℚ) (now : ℚ) :
    CreditScoreRecord :=
  let financial_score := calculate_financial_score financial_data
  let market_score := calculate_market_score financial_data
  let news_score := calculate_news_score news_data
  let overall_score :=
    w.financial_weight * financial_score + w.market_weight * market_score
      + w.news_weight * news_score
  let score_change :=
    score_change_of (get_previous_score history) overall_score
  let explanation_data :=
    generate_explanation set_order ticker financial_data news_data
      score_change
  { overall_score := overall_score
    financial_score := financial_score
    market_score := market_score
    news_score := news_score
    score_change := score_change
    trend_direction := determine_trend_direction score_change
    volatility := calculate_volatility history
    explanation_summary := explanation_data.explanation_summary
    key_factors := explanation_data.key_factors
    risk_indicators := explanation_data.risk_indicators
    feature_importance := calculate_feature_importance financial_data news_data
    model_version := "1.0"
    calculation_method := "weighted_average"
    confidence_level := 0.85
    calculated_at := now
    valid_until := now + 24 }

/-! ## Helper lemmas -/

lemma debt_ladder_add (s d : ℚ) :
    (if d ≤ 0.5 then s + 20 else if d ≤ 1.0 then s + 10
     else if d ≤ 2.0 then s - 10 else s - 20)
    = s + (if d ≤ 0.5 then 20 else if d ≤ 1.0 then 10
           else if d ≤ 2.0 then (-10 : ℚ) else -20) := by
  split_ifs <;> ring

lemma current_ratio_ladder_add (s c : ℚ) :
    (if c ≥ 2.0 then s + 15 else if c ≥ 1.5 then s + 10
     else if c ≥ 1.0 then s + 5 else s - 15)
    = s + (if c ≥ 2.0 then 15 else if c ≥ 1.5 then 10
           else if c ≥ 1.0 then 5 else (-15 : ℚ)) := by
  split_ifs <;> ring

lemma roe_ladder_add (s r : ℚ) :
    (if r ≥ 0.15 then s + 15 else if r ≥ 0.10 then s + 10
     else if r ≥ 0.05 then s + 5 else s - 10)
    = s + (if r ≥ 0.15 then 15 else if r ≥ 0.10 then 10
           else if r ≥ 0.05 then 5 else (-10 : ℚ)) := by
  split_ifs <;> ring

lemma growth_ladder_add (s g : ℚ) :
    (if g ≥ 0.10 then s + 10 else if g ≥ 0.05 then s + 5
     else if g < 0 then s - 10 else s)
    = s + (if g ≥ 0.10 then 10 else if g ≥ 0.05 then 5
           else if g < 0 then (-10 : ℚ) else 0) := by
  split_ifs <;> ring

/-! ## Claim theorems -/

/-- C1: for every FeatureSnapshot the financial sub-score is 50 plus the
fixed ladder adjustment of each present metric (debt-to-equity, current
ratio, ROE, revenue growth), missing metrics contributing nothing, the
result clamped to [0, 100]; it always lies in [0, 100]; and the snapshot
debt_to_equity 0.4, current_ratio 2.5, ROE 0.18, revenue_growth 0.12 scores
exactly 100. -/
theorem financial_score_spec :
    (∀ financial_data : FinancialData,
      calculate_financial_score financial_data =
        max 0 (min 100 (50
          + (financial_data.debt_to_equity.elim 0 fun d =>
              if d ≤ 0.5 then 20 else if d ≤ 1.0 then 10
              else if d ≤ 2.0 then -10 else -20)
          + (financial_data.current_ratio.elim 0 fun c =>
              if c ≥ 2.0 then 15 else if c ≥ 1.5 then 10
              else if c ≥ 1.0 then 5 else -15)
          + (financial_data.return_on_equity.elim 0 fun r =>
              if r ≥ 0.15 then 15 else if r ≥ 0.10 then 10
              else if r ≥ 0.05 then 5 else -10)
          + (financial_data.revenue_growth.elim 0 fun g =>
              if g ≥ 0.10 then 10 else if g ≥ 0.05 then 5
              else if g < 0 then -10 else 0)))) ∧
    (∀ financial_data : FinancialData,
      0 ≤ calculate_financial_score financial_data ∧
        calculate_financial_score financial_data ≤ 100) ∧
    calculate_financial_score
        ⟨some 0.4, some 2.5, some 0.18, some 0.12, none, none, none⟩ = 100 := by
  have key : ∀ financial_data : FinancialData,
      calculate_financial_score financial_data =
        max 0 (min 100 (50
          + (financial_data.debt_to_equity.elim 0 fun d =>
              if d ≤ 0.5 then 20 else if d ≤ 1.0 then 10
              else if d ≤ 2.0 then -10 else -20)
          + (financial_data.current_ratio.elim 0 fun c =>
              if c ≥ 2.0 then 15 else if c ≥ 1.5 then 10
              else if c ≥ 1.0 then 5 else -15)
          + (financial_data.return_on_equity.elim 0 fun r =>
              if r ≥ 0.15 then 15 else if r ≥ 0.10 then 10
              else if r ≥ 0.05 then 5 else -10)
          + (financial_data.revenue_growth.elim 0 fun g =>
              if g ≥ 0.10 then 10 else if g ≥ 0.05 then 5
              else if g < 0 then -10 else 0))) := by
    intro fd
    obtain ⟨d, c, r, g, pv, b, mc⟩ := fd
    cases d <;> cases c <;> cases r <;> cases g <;>
      simp only [calculate_financial_score, Option.elim_none, Option.elim_some,
        debt_ladder_add, current_ratio_ladder_add, roe_ladder_add,
        growth_ladder_add, add_zero]
  refine ⟨key, ?_, ?_⟩
  · intro fd
    rw [key fd]
    exact ⟨le_max_left _ _, max_le (by norm_num) (min_le_left _ _)⟩
  · norm_num [calculate_financial_score, min_def, max_def]

/-- C2: the score-change path suppresses exactly when the absolute delta is
below the threshold (default 20.0, so 19.99 is suppressed and 20.0 fires),
an emitted alert has type score_change with severity given by the ladder on
the absolute delta (30/20/10), and previous 70.0 with current 45.0 yields a
high-severity score_change alert. -/
theorem score_change_alert_spec :
    (∀ threshold previous current : ℚ,
      create_score_change_alert threshold previous current = none ↔
        |current - previous| < threshold) ∧
    (∀ threshold previous current : ℚ,
      (create_score_change_alert threshold previous current).map
          (fun a => (a.alert_type, a.severity)) =
        if |current - previous| < threshold then none
        else some ("score_change",
          if |current - previous| ≥ 30 then "critical"
          else if |current - previous| ≥ 20 then "high"
          else if |current - previous| ≥ 10 then "medium"
          else "low")) ∧
    create_score_change_alert 20 0 19.99 = none ∧
    (create_score_change_alert 20 0 20).map (fun a => a.severity) =
      some "high" ∧
    (create_score_change_alert 20 70 45).map
        (fun a => (a.alert_type, a.severity)) =
      some ("score_change", "high") := by
  refine ⟨?_, ?_, ?_, ?_, ?_⟩
  · intro t p c
    simp only [create_score_change_alert]
    split_ifs with h <;> simp [h]
  · intro t p c
    simp only [create_score_change_alert]
    split_ifs with h <;> simp [h]
  · norm_num [create_score_change_alert, abs_of_nonneg]
  · norm_num [create_score_change_alert]
  · norm_num [create_score_change_alert, abs_of_nonpos]

/-- The news sub-score as the spec sentence reads it: the capped penalty
accrues 10 points per article with a high-risk event type and,
independently, 5 points per article with risk score above 0.7 (so an
article that is both contributes 15). -/
def news_score_per_spec (news_events : List NewsEvent) : ℚ :=
  if news_events.isEmpty then 50
  else
    let avg_sentiment : ℚ :=
      (news_events.map (fun e => e.sentiment_score)).sum / news_events.length
    let penalty : ℚ :=
      10 * ((news_events.filter has_high_risk_type).length : ℚ)
        + 5 * ((news_events.filter
            (fun e => decide (e.risk_score > 0.7))).length : ℚ)
    max 0 (min 100 (50 + avg_sentiment * 30 - min penalty 20))

lemma news_penalty_foldl (l : List NewsEvent) (p : ℚ) :
    l.foldl news_penalty_step p =
      p + 10 * ((l.filter has_high_risk_type).length : ℚ)
        + 5 * ((l.filter
            (fun e => !has_high_risk_type e && decide (e.risk_score > 0.7))).length : ℚ) := by
  induction l generalizing p with
  | nil => simp
  | cons e l ih =>
    by_cases h1 : has_high_risk_type e
    · simp only [List.foldl_cons, List.filter_cons, ih]
      simp [news_penalty_step, h1]
      ring
    · by_cases h2 : e.risk_score > 0.7
      · simp only [List.foldl_cons, List.filter_cons, ih]
        simp [news_penalty_step, h1, h2]
        ring
      · simp only [List.foldl_cons, List.filter_cons, ih]
        simp [news_penalty_step, h1, h2]

/-- C3 counterexample: for the single news signal with sentiment 0, event
type legal and risk score 0.9, the code scores 40 (the `elif` adds only the
10-point type penalty) while the spec formula, charging the extra 5 points
for the risk score, yields 35. -/
theorem news_score_counterexample :
    calculate_news_score [⟨0, some "legal", 0.9⟩] = 40 ∧
    news_score_per_spec [⟨0, some "legal", 0.9⟩] = 35 ∧
    calculate_news_score [⟨0, some "legal", 0.9⟩] ≠
      news_score_per_spec [⟨0, some "legal", 0.9⟩] := by
  refine ⟨?_, ?_, ?_⟩ <;>
    norm_num [calculate_news_score, news_score_per_spec, news_penalty_step,
      has_high_risk_type, high_risk_events, min_def, max_def]

/-- C3 amended: the news sub-score is 50 for no news and otherwise 50 plus
average sentiment times 30 minus a penalty capped at 20 accruing 10 points
per article with a high-risk event type (default/legal/restructuring) and 5
points per article with risk score above 0.7 whose event type is NOT
high-risk, clamped to [0, 100]. -/
theorem news_score_amended :
    (∀ news_events : List NewsEvent,
      calculate_news_score news_events =
        if news_events.isEmpty then 50
        else
          max 0 (min 100 (50
            + ((news_events.map (fun e => e.sentiment_score)).sum
                / news_events.length) * 30
            - min (10 * ((news_events.filter has_high_risk_type).length : ℚ)
                + 5 * ((news_events.filter
                    (fun e => !has_high_risk_type e
                      && decide (e.risk_score > 0.7))).length : ℚ)) 20))) ∧
    calculate_news_score [] = 50 := by
  constructor
  · intro l
    simp only [calculate_news_score, news_penalty_foldl, zero_add]
  · simp [calculate_news_score]

lemma is_high_risk_news_iff (e : NewsEvent) :
    is_high_risk_news e = true ↔
      ((e.event_type = some "default" ∨ e.event_type = some "legal"
          ∨ e.event_type = some "restructuring")
        ∨ e.sentiment_score < -0.5 ∨ e.risk_score > 0.7) := by
  cases h : e.event_type <;>
    simp [is_high_risk_news, has_high_risk_type, high_risk_events, h]
  tauto

/-- C4 counterexample: the signal with sentiment −0.8, null event type and
risk score 0 is high-risk (sentiment below −0.5), yet the code emits no
alert: building the alert title calls `event_type.title()` on `None`, the
raised `AttributeError` is caught and `create_news_alert` returns `None`. -/
theorem news_alert_counterexample :
    is_high_risk_news ⟨-0.8, none, 0⟩ = true ∧
    create_news_alert ⟨-0.8, none, 0⟩ = none := by
  constructor
  · norm_num [is_high_risk_news, has_high_risk_type]
  · norm_num [create_news_alert, is_high_risk_news, has_high_risk_type]

/-- C4 amended: the news-event path emits an alert if and only if the
signal is high-risk (event type among default/legal/restructuring, or
sentiment below −0.5, or risk score above 0.7) AND its event type is
non-null — a high-risk signal with a null event type emits nothing because
the alert title's `event_type.title()` call raises `AttributeError`, caught
by the handler which returns `None`.  The emitted severity is critical for
default, high for legal/restructuring, else high below sentiment −0.7,
medium below −0.3, otherwise low; and a signal with event type default
alerts with severity critical regardless of sentiment and risk score. -/
theorem news_alert_amended :
    (∀ e : NewsEvent,
      (create_news_alert e).isSome = true ↔
        (((e.event_type = some "default" ∨ e.event_type = some "legal"
            ∨ e.event_type = some "restructuring")
          ∨ e.sentiment_score < -0.5 ∨ e.risk_score > 0.7)
          ∧ e.event_type ≠ none)) ∧
    (∀ e : NewsEvent,
      (create_news_alert e).map (fun a => (a.alert_type, a.severity)) =
        if (((e.event_type = some "default" ∨ e.event_type = some "legal"
              ∨ e.event_type = some "restructuring")
            ∨ e.sentiment_score < -0.5 ∨ e.risk_score > 0.7)
            ∧ e.event_type ≠ none) then
          some ("news_event",
            if e.event_type = some "default" then "critical"
            else if e.event_type = some "legal"
                ∨ e.event_type = some "restructuring" then "high"
            else if e.sentiment_score < -0.7 then "high"
            else if e.sentiment_score < -0.3 then "medium"
            else "low")
        else none) ∧
    (∀ s r : ℚ,
      (create_news_alert ⟨s, some "default", r⟩).map
          (fun a => (a.alert_type, a.severity)) =
        some ("news_event", "critical")) := by
  refine ⟨?_, ?_, ?_⟩
  · intro e
    cases he : e.event_type with
    | none =>
        simp [create_news_alert, he]
    | some t =>
        by_cases h : is_high_risk_news e
        · have hp := (is_high_risk_news_iff e).mp h
          rw [he] at hp
          simpa [create_news_alert, he, h] using hp
        · have hn := fun hp => h ((is_high_risk_news_iff e).mpr hp)
          rw [he] at hn
          simpa [create_news_alert, he, h] using hn
  · intro e
    cases he : e.event_type with
    | none =>
        rw [if_neg (fun hc => hc.2 rfl)]
        simp [create_news_alert, he]
    | some t =>
        by_cases h : is_high_risk_news e
        · have hp := (is_high_risk_news_iff e).mp h
          rw [he] at hp
          rw [if_pos ⟨hp, by simp⟩]
          simp [create_news_alert, he, h, determine_news_severity]
        · have hn := fun hp => h ((is_high_risk_news_iff e).mpr hp)
          rw [he] at hn
          rw [if_neg (fun hc => hn hc.1)]
          simp [create_news_alert, h]
  · intro s r
    norm_num [create_news_alert, is_high_risk_news, has_high_risk_type,
      high_risk_events, determine_news_severity]

lemma popVariance_nonneg (l : List ℚ) : 0 ≤ popVariance l := by
  unfold popVariance
  apply div_nonneg
  · apply List.sum_nonneg
    intro x hx
    obtain ⟨y, hy, rfl⟩ := List.mem_map.mp hx
    positivity
  · exact Nat.cast_nonneg _

lemma take_ten_pair : ([0, 2] : List ℚ).take 10 = [0, 2] :=
  List.take_of_length_le (by simp)

/-- C5 counterexample: for the score history [0, 2] the code reports
`np.std` = 1 (population standard deviation, ddof 0) while the sample
standard deviation of the same two scores is √2, so the reported volatility
is not the sample standard deviation. -/
theorem volatility_counterexample :
    calculate_volatility [0, 2] = 1 ∧
    claimed_volatility [0, 2] = Real.sqrt 2 ∧
    calculate_volatility [0, 2] ≠ claimed_volatility [0, 2] := by
  have hpop : popVariance (([0, 2] : List ℚ).take 10) = 1 := by
    rw [take_ten_pair]
    norm_num [popVariance, listMean]
  have hsam : sampleVariance (([0, 2] : List ℚ).take 10) = 2 := by
    rw [take_ten_pair]
    norm_num [sampleVariance, listMean]
  have hlen : ¬(([0, 2] : List ℚ).take 10).length < 2 := by
    rw [take_ten_pair]
    norm_num
  have h1 : calculate_volatility [0, 2] = 1 := by
    simp only [calculate_volatility]
    rw [if_neg hlen, hpop]
    norm_num
  have h2 : claimed_volatility [0, 2] = Real.sqrt 2 := by
    simp only [claimed_volatility]
    rw [if_neg hlen, hsam]
    norm_num
  refine ⟨h1, h2, ?_⟩
  rw [h1, h2]
  intro heq
  have hsq := Real.sq_sqrt (by norm_num : (0 : ℝ) ≤ 2)
  rw [← heq] at hsq
  norm_num at hsq

/-- C5 amended: the reported volatility is the population standard deviation
(`np.std`, ddof 0) of the most recent 10 overall scores — it is nonnegative
and its square is the population variance of those scores — and it is 0
whenever fewer than 2 scores exist. -/
theorem volatility_amended :
    ∀ history : List ℚ,
      0 ≤ calculate_volatility history ∧
      calculate_volatility history ^ 2 =
        (if (history.take 10).length < 2 then 0
         else ((popVariance (history.take 10) : ℚ) : ℝ)) ∧
      ((history.take 10).length < 2 → calculate_volatility history = 0) := by
  intro history
  simp only [calculate_volatility]
  split_ifs with hc
  · exact ⟨le_refl 0, by norm_num, fun _ => rfl⟩
  · refine ⟨Real.sqrt_nonneg _, ?_, fun hlt => absurd hlt hc⟩
    exact Real.sq_sqrt (by exact_mod_cast popVariance_nonneg _)

/-- C5 amended witness: an empty history has fewer than 2 scores and its
reported volatility is 0. -/
theorem volatility_amended_witness : calculate_volatility [] = 0 :=
  (volatility_amended []).2.2 (by simp)

lemma trend_eq_increasing (c : ℚ) :
    determine_trend_direction c = "increasing" ↔ c > 5 := by
  unfold determine_trend_direction
  split_ifs with h1 h2
  · simp [h1]
  · exact ⟨fun h => absurd h (by decide), fun h => absurd h1 (by linarith)⟩
  · exact ⟨fun h => absurd h (by decide), fun h => absurd h h1⟩

lemma trend_eq_decreasing (c : ℚ) :
    determine_trend_direction c = "decreasing" ↔ c < -5 := by
  unfold determine_trend_direction
  split_ifs with h1 h2
  · exact ⟨fun h => absurd h (by decide), fun h => absurd h1 (by linarith)⟩
  · simp [h2]
  · exact ⟨fun h => absurd h (by decide), fun h => absurd h h2⟩

lemma trend_eq_stable (c : ℚ) :
    determine_trend_direction c = "stable" ↔ -5 ≤ c ∧ c ≤ 5 := by
  unfold determine_trend_direction
  split_ifs with h1 h2
  · exact ⟨fun h => absurd h (by decide), fun h => absurd h1 (by linarith [h.2])⟩
  · exact ⟨fun h => absurd h (by decide), fun h => absurd h2 (by linarith [h.1])⟩
  · push_neg at h1 h2
    exact ⟨fun _ => ⟨h2, h1⟩, fun _ => rfl⟩

/-- C6 counterexample: with exactly one stored prior score 30 (which is the
most recent previous score, nonzero) and a new overall score 80, the code
records score_change = 0 and trend stable, not new − previous = 50:
`_get_previous_score` offsets by 1 before the new row is saved, so with a
single stored score it fetches nothing. -/
theorem score_change_counterexample :
    recorded_score_change [30] 80 = 0 ∧
    determine_trend_direction (recorded_score_change [30] 80) = "stable" ∧
    recorded_score_change [30] 80 ≠ 80 - 30 := by
  refine ⟨?_, ?_, ?_⟩ <;>
    norm_num [recorded_score_change, get_previous_score, score_change_of,
      determine_trend_direction]

/-- C6 amended: score_change equals the new overall score minus the value
fetched by `_get_previous_score` — the SECOND most recent stored score,
since the query offsets by 1 before the new row is saved — when at least
two scores are stored and that value is nonzero; it is 0 when no score or
only one score is stored, and also when the fetched value is exactly 0.0
(Python truthiness).  The trend label is increasing exactly when
score_change > 5, decreasing exactly when score_change < −5, and stable
otherwise; an entity with no prior Score gets score_change = 0 and trend
stable. -/
theorem score_change_trend_amended :
    (∀ overall : ℚ, recorded_score_change [] overall = 0) ∧
    (∀ p0 overall : ℚ, recorded_score_change [p0] overall = 0) ∧
    (∀ (p0 p : ℚ) (rest : List ℚ) (overall : ℚ), p ≠ 0 →
      recorded_score_change (p0 :: p :: rest) overall = overall - p) ∧
    (∀ (p0 : ℚ) (rest : List ℚ) (overall : ℚ),
      recorded_score_change (p0 :: 0 :: rest) overall = 0) ∧
    (∀ c : ℚ,
      (determine_trend_direction c = "increasing" ↔ c > 5) ∧
      (determine_trend_direction c = "decreasing" ↔ c < -5) ∧
      (determine_trend_direction c = "stable" ↔ -5 ≤ c ∧ c ≤ 5)) ∧
    (∀ overall : ℚ,
      recorded_score_change [] overall = 0 ∧
      determine_trend_direction (recorded_score_change [] overall) =
        "stable") := by
  refine ⟨fun o => rfl, fun p0 o => rfl, ?_, ?_, ?_, ?_⟩
  · intro p0 p rest o hp
    simp [recorded_score_change, get_previous_score, score_change_of, hp]
  · intro p0 rest o
    simp [recorded_score_change, get_previous_score, score_change_of]
  · intro c
    exact ⟨trend_eq_increasing c, trend_eq_decreasing c, trend_eq_stable c⟩
  · intro o
    refine ⟨rfl, ?_⟩
    norm_num [recorded_score_change, get_previous_score, score_change_of,
      determine_trend_direction]

/-- C6 amended witness: with stored scores [10, 30] (most recent first) and
a new score 80, the fetched previous value is 30 and score_change is
80 − 30. -/
theorem score_change_trend_amended_witness :
    recorded_score_change [10, 30] 80 = 80 - 30 :=
  score_change_trend_amended.2.2.1 10 30 [] 80 (by norm_num)

/-- C10 counterexample: with stored scores [0.0, 40.0] (most recent first —
the most recent prior Score is exactly 0.0) and a new overall score 80, the
code fetches the second most recent score 40.0 and records
score_change = 40 with trend increasing, not 0 and stable. -/
theorem zero_previous_counterexample :
    get_previous_score [0, 40] = some 40 ∧
    recorded_score_change [0, 40] 80 = 40 ∧
    determine_trend_direction (recorded_score_change [0, 40] 80) =
      "increasing" ∧
    recorded_score_change [0, 40] 80 ≠ 0 := by
  refine ⟨rfl, ?_, ?_, ?_⟩ <;>
    norm_num [recorded_score_change, get_previous_score, score_change_of,
      determine_trend_direction]

/-- C10 amended: the most recent prior Score is never subtracted at all —
`_get_previous_score` offsets by 1 before the new row is saved, fetching
the second most recent stored score.  It is that fetched score which, when
exactly 0.0 (or when fewer than two scores are stored), is treated as
absent: score_change = 0 and trend stable, exactly as if no prior Score
existed. -/
theorem zero_fetched_previous_treated_as_absent :
    ∀ (p0 overall : ℚ) (rest : List ℚ),
      recorded_score_change (p0 :: 0 :: rest) overall = 0 ∧
      recorded_score_change (p0 :: 0 :: rest) overall =
        recorded_score_change [] overall ∧
      determine_trend_direction
        (recorded_score_change (p0 :: 0 :: rest) overall) = "stable" ∧
      recorded_score_change [p0] overall = 0 := by
  intro p0 o rest
  refine ⟨?_, ?_, ?_, rfl⟩ <;>
    norm_num [recorded_score_change, get_previous_score, score_change_of,
      determine_trend_direction]

/-- A never-touched alert row. -/
def fresh_alert : AlertState :=
  { is_read := false
    is_acknowledged := false
    acknowledged_by := none
    acknowledged_at := none }

/-- C7 counterexample: acknowledging an already-acknowledged alert with a
different acknowledger changes both the recorded acknowledger and the
acknowledgment time — the second acknowledge call is not a no-op. -/
theorem acknowledge_counterexample :
    (acknowledge_alert (acknowledge_alert fresh_alert "alice" 1) "bob"
        2).acknowledged_by ≠
      (acknowledge_alert fresh_alert "alice" 1).acknowledged_by ∧
    (acknowledge_alert (acknowledge_alert fresh_alert "alice" 1) "bob"
        2).acknowledged_at ≠
      (acknowledge_alert fresh_alert "alice" 1).acknowledged_at := by
  constructor
  · simp [acknowledge_alert]
  · norm_num [acknowledge_alert]

/-- C7 amended: marking read is idempotent, and acknowledging is
last-writer-wins: a repeated acknowledge overwrites the recorded
acknowledger and time with those of the latest call, so it is a no-op
exactly when the acknowledger and time are unchanged. -/
theorem alert_read_acknowledge_amended :
    (∀ a : AlertState, mark_alert_read (mark_alert_read a) = mark_alert_read a) ∧
    (∀ (a : AlertState) (b1 b2 : String) (t1 t2 : ℚ),
      acknowledge_alert (acknowledge_alert a b1 t1) b2 t2 =
        acknowledge_alert a b2 t2) ∧
    (∀ (a : AlertState) (b : String) (t : ℚ),
      acknowledge_alert (acknowledge_alert a b t) b t =
        acknowledge_alert a b t) :=
  ⟨fun _ => rfl, fun _ _ _ _ _ => rfl, fun _ _ _ => rfl⟩

lemma score_run_eq_build (set_order : List String → List String)
    (w : Weights) (ticker : String) (financial_data : FinancialData)
    (news_data : List NewsEvent) (history : List ℚ) (now : ℚ)
    (rec : CreditScoreRecord)
    (h : IsScoreRun set_order w ticker financial_data news_data history now
      rec) :
    rec = build_credit_score set_order w ticker financial_data news_data
      history now := by
  obtain ⟨h1, h2, h3, h4, h5, h6, h7, h8, h9, h10, h11, h12, h13, h14, h15,
    h16⟩ := h
  cases rec
  dsimp only at h1 h2 h3 h4 h5 h6 h7 h8 h9 h10 h11 h12 h13 h14 h15 h16 ⊢
  subst h1 h2 h3 h4 h5 h6 h7 h8 h9 h10 h11 h12 h13 h14 h15 h16
  rfl

lemma generate_explanation_risk_indicators
    (ord1 ord2 : List String → List String) (ticker : String)
    (financial_data : FinancialData) (news_events : List NewsEvent)
    (score_change : ℚ) :
    (generate_explanation ord1 ticker financial_data news_events
        score_change).risk_indicators =
      (generate_explanation ord2 ticker financial_data news_events
          score_change).risk_indicators := by
  dsimp only [generate_explanation]
  congr 1
  split_ifs <;> rfl

/-- An empty snapshot: every metric missing. -/
def empty_snapshot : FinancialData := ⟨none, none, none, none, none, none, none⟩

/-- Two news signals carrying the two distinct high-risk event types legal
and restructuring. -/
def two_type_news : List NewsEvent :=
  [⟨0, some "legal", 0⟩, ⟨0, some "restructuring", 0⟩]

/-- C8 counterexample: two runs on identical snapshot, news and history
inputs, differing only in the process's hash-seed-dependent set iteration
order, both satisfy the run relation yet produce records with different
key_factors — the `', '.join(set(...))` over the high-risk event types
makes the saved explanation depend on hidden per-process state, not only on
the inputs. -/
theorem score_run_counterexample :
    IsScoreRun set_order_fwd ⟨0.4, 0.3, 0.3⟩ "AAPL" empty_snapshot
      two_type_news [] 0
      (build_credit_score set_order_fwd ⟨0.4, 0.3, 0.3⟩ "AAPL" empty_snapshot
        two_type_news [] 0) ∧
    IsScoreRun set_order_rev ⟨0.4, 0.3, 0.3⟩ "AAPL" empty_snapshot
      two_type_news [] 0
      (build_credit_score set_order_rev ⟨0.4, 0.3, 0.3⟩ "AAPL" empty_snapshot
        two_type_news [] 0) ∧
    (build_credit_score set_order_fwd ⟨0.4, 0.3, 0.3⟩ "AAPL" empty_snapshot
        two_type_news [] 0).key_factors ≠
      (build_credit_score set_order_rev ⟨0.4, 0.3, 0.3⟩ "AAPL" empty_snapshot
        two_type_news [] 0).key_factors := by
  refine ⟨⟨rfl, rfl, rfl, rfl, rfl, rfl, rfl, rfl, rfl, rfl, rfl, rfl, rfl,
      rfl, rfl, rfl⟩,
    ⟨rfl, rfl, rfl, rfl, rfl, rfl, rfl, rfl, rfl, rfl, rfl, rfl, rfl, rfl,
      rfl, rfl⟩, ?_⟩
  have hfwd : set_order_fwd ["legal", "restructuring"] =
      ["legal", "restructuring"] := by decide
  have hrev : set_order_rev ["legal", "restructuring"] =
      ["restructuring", "legal"] := by decide
  have h1 : (build_credit_score set_order_fwd ⟨0.4, 0.3, 0.3⟩ "AAPL"
      empty_snapshot two_type_news [] 0).key_factors =
      ["High-risk events detected: "
        ++ String.intercalate ", " ["legal", "restructuring"]] := by
    norm_num [build_credit_score, generate_explanation, empty_snapshot,
      two_type_news, has_high_risk_type, high_risk_events,
      List.filterMap_cons, hfwd]
  have h2 : (build_credit_score set_order_rev ⟨0.4, 0.3, 0.3⟩ "AAPL"
      empty_snapshot two_type_news [] 0).key_factors =
      ["High-risk events detected: "
        ++ String.intercalate ", " ["restructuring", "legal"]] := by
    norm_num [build_credit_score, generate_explanation, empty_snapshot,
      two_type_news, has_high_risk_type, high_risk_events,
      List.filterMap_cons, hrev]
  rw [h1, h2]
  decide

/-- C8 amended: the pipeline has exactly one piece of hidden per-process
state — the hash-seed-dependent iteration order of the set of high-risk
event types joined into key_factors.  Two runs on identical snapshot, news,
history, weight and clock inputs within one process (same set order)
produce records identical in every field; across different set orders every
field except key_factors and explanation_summary is still determined by
the inputs alone. -/
theorem score_run_amended :
    (∀ (set_order : List String → List String) (w : Weights)
      (ticker : String) (financial_data : FinancialData)
      (news_data : List NewsEvent) (history : List ℚ) (now : ℚ)
      (r1 r2 : CreditScoreRecord),
      IsScoreRun set_order w ticker financial_data news_data history now r1 →
      IsScoreRun set_order w ticker financial_data news_data history now r2 →
      r1 = r2) ∧
    (∀ (ord1 ord2 : List String → List String) (w : Weights)
      (ticker : String) (financial_data : FinancialData)
      (news_data : List NewsEvent) (history : List ℚ) (now : ℚ)
      (r1 r2 : CreditScoreRecord),
      IsScoreRun ord1 w ticker financial_data news_data history now r1 →
      IsScoreRun ord2 w ticker financial_data news_data history now r2 →
      r1.overall_score = r2.overall_score ∧
      r1.financial_score = r2.financial_score ∧
      r1.market_score = r2.market_score ∧
      r1.news_score = r2.news_score ∧
      r1.score_change = r2.score_change ∧
      r1.trend_direction = r2.trend_direction ∧
      r1.volatility = r2.volatility ∧
      r1.risk_indicators = r2.risk_indicators ∧
      r1.feature_importance = r2.feature_importance ∧
      r1.model_version = r2.model_version ∧
      r1.calculation_method = r2.calculation_method ∧
      r1.confidence_level = r2.confidence_level ∧
      r1.calculated_at = r2.calculated_at ∧
      r1.valid_until = r2.valid_until) := by
  constructor
  · intro ord w ticker fd nd hist now r1 r2 hr1 hr2
    rw [score_run_eq_build ord w ticker fd nd hist now r1 hr1,
      score_run_eq_build ord w ticker fd nd hist now r2 hr2]
  · intro ord1 ord2 w ticker fd nd hist now r1 r2 hr1 hr2
    rw [score_run_eq_build ord1 w ticker fd nd hist now r1 hr1,
      score_run_eq_build ord2 w ticker fd nd hist now r2 hr2]
    refine ⟨rfl, rfl, rfl, rfl, rfl, rfl, rfl, ?_, rfl, rfl, rfl, rfl, rfl,
      rfl⟩
    exact generate_explanation_risk_indicators ord1 ord2 ticker fd nd
      (score_change_of (get_previous_score hist)
        (w.financial_weight * calculate_financial_score fd
          + w.market_weight * calculate_market_score fd
          + w.news_weight * calculate_news_score nd))

/-- C8 amended witness: two runs with the same set order on a concrete
input (default weights, empty snapshot, no news, no history, clock 0) yield
the same record. -/
theorem score_run_amended_witness :
    build_credit_score set_order_fwd ⟨0.4, 0.3, 0.3⟩ "AAPL" empty_snapshot
        [] [] 0 =
      build_credit_score set_order_fwd ⟨0.4, 0.3, 0.3⟩ "AAPL" empty_snapshot
        [] [] 0 := by
  have hrun : IsScoreRun set_order_fwd ⟨0.4, 0.3, 0.3⟩ "AAPL" empty_snapshot
      [] [] 0
      (build_credit_score set_order_fwd ⟨0.4, 0.3, 0.3⟩ "AAPL" empty_snapshot
        [] [] 0) :=
    ⟨rfl, rfl, rfl, rfl, rfl, rfl, rfl, rfl, rfl, rfl, rfl, rfl, rfl, rfl,
      rfl, rfl⟩
  exact score_run_amended.1 set_order_fwd _ _ _ _ _ _ _ _ hrun hrun

end CredSentinel
